import Mathlib

/-!
Verification of the asynchronous image-generation job pipeline.

The definitions below are a shallow embedding of the pipeline code:
the job message value object and its wire form (app/services/queue_service.py),
the credit ledger operations (app/services/credit_service.py),
the generation-record status updates performed by the background worker
(app/services/worker_service.py together with the unconditional
update_by_id of app/repositories/base_repository.py), the artifact
download/upload stage (app/services/replicate_service.py and the worker),
and the message settle logic of the receive loop.

Sources of nondeterminism in the Python code (uuid4 identifiers and
datetime.utcnow timestamps) are made explicit parameters of the
corresponding Lean functions; database writes become explicit state
passing; raised exceptions become Except values or explicit outcome
constructors.
-/

namespace ImgGen

/-! Data model: statuses, subscriptions, usage log, generation records. -/

/-- GenerationStatus from app/models/generation.py. -/
inductive GenerationStatus
  | pending
  | processing
  | completed
  | failed
  | cancelled
deriving DecidableEq, Repr

/-- SubscriptionTier from app/services/payment_service.py. -/
inductive SubscriptionTier
  | free
  | basic
  | premium
deriving DecidableEq, Repr

/-- TierConfig.TIERS credits_per_month values (payment_service.py):
free 10, basic 200, premium -1 (sentinel for unlimited). -/
def TierConfig.credits_per_month : SubscriptionTier → Int
  | .free => 10
  | .basic => 200
  | .premium => -1

/-- Tier is unlimited when its configured credits_per_month is the -1 sentinel,
exactly the test made in credit_service.py. -/
def isUnlimited (tier : SubscriptionTier) : Bool :=
  TierConfig.credits_per_month tier = -1

/-- Fields of the subscription document used by CreditService. -/
structure Subscription where
  id : String
  user_id : String
  tier : SubscriptionTier
  credits_remaining : Int
  credits_used_this_period : Int
  credits_per_month : Int
deriving DecidableEq, Repr

/-- Entry appended by usage_log_repo.create. -/
structure UsageEntry where
  user_id : String
  generation_id : Option String
  credits_used : Int
  action : String
  reason : Option String
deriving DecidableEq, Repr

/-- Fields of the generation document touched by the worker pipeline
(app/models/generation.py plus the extra keys the worker writes through
the unconditional Mongo update). Blob results are abbreviated to their
primary URL strings. -/
structure GenRecord where
  id : String
  user_id : String
  prompt : String
  status : GenerationStatus
  cost_credits : Int
  image_url : Option String
  all_outputs : List String
  error_message : Option String
  attempts : Option Int
  started_at : Option Nat
  completed_at : Option Nat
  failed_at : Option Nat
  processing_time_ms : Option Int
  updated_at : Nat
deriving DecidableEq, Repr

/-! Job message and its wire form (queue_service.py, GenerationJobMessage). -/

/-- Open key/value settings map carried opaquely through the pipeline. -/
abbrev SettingsMap := List (String × String)

/-- GenerationJobMessage: the immutable value object built by its
constructor.  created_at and message_id are produced by the constructor
itself (datetime.utcnow / uuid4); here they are explicit fields filled in
by mkJobMessage. -/
structure GenerationJobMessage where
  generation_id : String
  user_id : String
  job_type : String
  prompt : String
  model : String
  settings : SettingsMap
  callback_url : Option String
  priority : String
  attempt : Int
  created_at : String
  message_id : String
deriving DecidableEq, Repr

/-- GenerationJobMessage.__init__: settings defaults to the empty map,
created_at is the current time and message_id a fresh uuid4 value, both
passed explicitly here as now and fresh. -/
def mkJobMessage (generation_id user_id prompt model job_type : String)
    (settings : Option SettingsMap) (callback_url : Option String)
    (priority : String) (attempt : Int) (now fresh : String) :
    GenerationJobMessage :=
  { generation_id := generation_id
    user_id := user_id
    job_type := job_type
    prompt := prompt
    model := model
    settings := settings.getD []
    callback_url := callback_url
    priority := priority
    attempt := attempt
    created_at := now
    message_id := fresh }

/-- Wire dictionary written by to_dict.  Keys read back through dict.get
in from_dict (type, settings, callback_url, priority, attempt) are
Option fields; the remaining keys are read with mandatory indexing.
The Python key named type is rendered msg_type. -/
structure MsgDict where
  message_id : String
  generation_id : String
  user_id : String
  msg_type : Option String
  prompt : String
  model : String
  settings : Option SettingsMap
  callback_url : Option String
  priority : Option String
  attempt : Option Int
  created_at : String
deriving DecidableEq, Repr

/-- GenerationJobMessage.to_dict: every field of the message is written
to the wire dictionary. -/
def GenerationJobMessage.to_dict (m : GenerationJobMessage) : MsgDict :=
  { message_id := m.message_id
    generation_id := m.generation_id
    user_id := m.user_id
    msg_type := some m.job_type
    prompt := m.prompt
    model := m.model
    settings := some m.settings
    callback_url := m.callback_url
    priority := some m.priority
    attempt := some m.attempt
    created_at := m.created_at }

/-- GenerationJobMessage.from_dict: reads the payload fields (with the
dict.get defaults) and calls the constructor, which regenerates
created_at and message_id; the wire values of those two keys are never
read. -/
def GenerationJobMessage.from_dict (d : MsgDict) (now fresh : String) :
    GenerationJobMessage :=
  mkJobMessage d.generation_id d.user_id d.prompt d.model
    (d.msg_type.getD "text_to_image") d.settings d.callback_url
    (d.priority.getD "normal") (d.attempt.getD 1) now fresh

/-- send_generation_request (queue_service.py): builds a fresh
GenerationJobMessage from the given payload fields.  The constructor is
called without an attempt argument, so attempt takes its default value 1;
message_id and created_at are freshly generated.  The function returns
the message that is serialized and enqueued. -/
def send_generation_request (generation_id user_id prompt model job_type : String)
    (settings : Option SettingsMap) (callback_url : Option String)
    (priority : String) (now fresh : String) : GenerationJobMessage :=
  mkJobMessage generation_id user_id prompt model job_type settings
    callback_url priority 1 now fresh

/-- resubmit_dead_letter_message (queue_service.py): parses the
dead-lettered body, increments its attempt counter, then calls
send_generation_request with the payload fields of the parsed message.
send_generation_request has no attempt parameter, so the incremented
counter is not forwarded. -/
def resubmit_dead_letter_message (original : GenerationJobMessage)
    (now fresh : String) : GenerationJobMessage :=
  let job := { original with attempt := original.attempt + 1 }
  send_generation_request job.generation_id job.user_id job.prompt job.model
    job.job_type (some job.settings) job.callback_url job.priority now fresh

/-! Credit ledger (credit_service.py).  The subscription document and the
usage log are passed and returned explicitly; a raised
InsufficientCreditsError becomes an error outcome with the state
unchanged, matching the raise happening before any repository write. -/

/-- Errors raised by CreditService.deduct_credits. -/
inductive CreditError
  | insufficientCredits (required available : Int)
deriving DecidableEq, Repr

/-- Result dictionary returned by deduct_credits. -/
structure DeductResult where
  credits_remaining : Int
  credits_deducted : Int
  is_unlimited : Bool
deriving DecidableEq, Repr

/-- Result dictionary returned by refund_credits. -/
structure RefundResult where
  credits_remaining : Int
  credits_refunded : Int
  is_unlimited : Bool
deriving DecidableEq, Repr

/-- CreditService.deduct_credits: unlimited tiers skip the numeric
deduction but still log a zero-credit usage entry; otherwise the balance
is checked first and InsufficientCreditsError is raised (state unchanged)
when credits_remaining < credits; else the subtraction is written and a
usage entry logged. -/
def deduct_credits (sub : Subscription) (logs : List UsageEntry)
    (credits : Int) (generation_id : Option String) :
    Subscription × List UsageEntry × Except CreditError DeductResult :=
  if isUnlimited sub.tier then
    (sub,
     logs ++ [{ user_id := sub.user_id, generation_id := generation_id,
                credits_used := 0, action := "generation", reason := none }],
     .ok { credits_remaining := -1, credits_deducted := 0, is_unlimited := true })
  else if sub.credits_remaining < credits then
    (sub, logs, .error (.insufficientCredits credits sub.credits_remaining))
  else
    let new_remaining := sub.credits_remaining - credits
    ({ sub with credits_remaining := new_remaining,
                credits_used_this_period := sub.credits_used_this_period + credits },
     logs ++ [{ user_id := sub.user_id, generation_id := generation_id,
                credits_used := credits, action := "generation", reason := none }],
     .ok { credits_remaining := new_remaining, credits_deducted := credits,
           is_unlimited := false })

/-- CreditService.refund_credits: unlimited tiers are a no-op; otherwise
credits are added back capped at credits_per_month, the used counter is
decreased (floored at 0) and a refund entry with negative credits_used is
logged. -/
def refund_credits (sub : Subscription) (logs : List UsageEntry)
    (credits : Int) (reason : String) (generation_id : Option String) :
    Subscription × List UsageEntry × RefundResult :=
  if isUnlimited sub.tier then
    (sub, logs,
     { credits_remaining := -1, credits_refunded := 0, is_unlimited := true })
  else
    let new_remaining := min (sub.credits_remaining + credits) sub.credits_per_month
    let credits_used := max 0 (sub.credits_used_this_period - credits)
    ({ sub with credits_remaining := new_remaining,
                credits_used_this_period := credits_used },
     logs ++ [{ user_id := sub.user_id, generation_id := generation_id,
                credits_used := -credits, action := "refund",
                reason := some reason }],
     { credits_remaining := new_remaining, credits_refunded := credits,
       is_unlimited := false })

/-- Test for a refund usage entry for a given generation appended after a
prefix of the log (used to state the refund exactly-once property). -/
def refundLogged (pre post : List UsageEntry) (generation_id : String)
    (cost : Int) : Bool :=
  (post.drop pre.length).any fun e =>
    e.action == "refund" && e.generation_id == some generation_id &&
      e.credits_used == -cost

/-! Generation record store and the status updates the worker performs.
BaseRepository.update_by_id issues a Mongo find_one_and_update with an
unconditional set of the given fields on the document matching the id;
there is no condition on the current status. -/

/-- BaseRepository.update_by_id: applies the field update to the record
with the matching id, unconditionally. -/
def update_by_id (store : List GenRecord) (generation_id : String)
    (upd : GenRecord → GenRecord) : List GenRecord :=
  store.map fun r => if r.id = generation_id then upd r else r

/-- BaseRepository.find_by_id. -/
def find_by_id (store : List GenRecord) (generation_id : String) :
    Option GenRecord :=
  store.find? fun r => r.id == generation_id

/-- Step 1 of process_generation_job: _update_status(PROCESSING,
started_at := now).  The resulting set dictionary assigns status,
started_at and updated_at whatever the current document holds. -/
def update_status_processing (r : GenRecord) (now : Nat) : GenRecord :=
  { r with status := .processing, started_at := some now, updated_at := now }

/-- Failure path of _handle_job_failure: _update_status(FAILED,
error_message, failed_at, attempts). -/
def update_status_failed (r : GenRecord) (error_message : String)
    (attempt : Int) (now : Nat) : GenRecord :=
  { r with status := .failed, error_message := some error_message,
           failed_at := some now, attempts := some attempt, updated_at := now }

/-- _update_completion: writes status completed, the primary blob URL,
all outputs, completion timestamp and processing time. -/
def update_completion (r : GenRecord) (blob_urls : List String)
    (processing_time_ms : Option Int) (now : Nat) : GenRecord :=
  { r with status := .completed, image_url := blob_urls.head?,
           all_outputs := blob_urls, completed_at := some now,
           processing_time_ms := processing_time_ms, updated_at := now }

/-! Worker failure handling and message settling
(worker_service.py _handle_job_failure, queue_service.py
receive_messages). -/

/-- Cross-job state the worker touches: the generation store, the user
subscription and the usage log. -/
structure WorkerState where
  store : List GenRecord
  sub : Subscription
  logs : List UsageEntry
deriving DecidableEq, Repr

/-- BackgroundWorker.max_retries. -/
def max_retries : Int := 3

/-- _handle_job_failure: writes the failed status update for the
generation and returns the should-complete flag for the receive loop.
Both the retry branch (attempt < max_retries) and the max-retries branch
return False; no credit-ledger operation is performed. -/
def handle_job_failure (st : WorkerState) (msg : GenerationJobMessage)
    (error : String) (now : Nat) : WorkerState × Bool :=
  let store1 := update_by_id st.store msg.generation_id
    (fun r => update_status_failed r error msg.attempt now)
  let st1 : WorkerState := { st with store := store1 }
  if msg.attempt < max_retries then (st1, false) else (st1, false)

/-- Error raised while processing a job.  The worker catches every
exception with a single handler and only uses its string rendering. -/
inductive JobError
  | rateLimit (message : String)
  | providerError (message : String)
  | timeoutError (message : String)
  | other (message : String)
deriving DecidableEq, Repr

/-- str(error) as used by _handle_job_failure. -/
def JobError.message : JobError → String
  | .rateLimit s => s
  | .providerError s => s
  | .timeoutError s => s
  | .other s => s

/-- Failure branch of process_generation_job: every caught exception is
passed to _handle_job_failure, with no case split on its type. -/
def process_failure (st : WorkerState) (msg : GenerationJobMessage)
    (error : JobError) (now : Nat) : WorkerState × Bool :=
  handle_job_failure st msg error.message now

/-- Settle operation applied to a leased message by the receive loop. -/
inductive SettleAction
  | complete
  | abandon
  | deadLetter (reason : String) (detail : String)
  | noSettle
deriving DecidableEq, Repr

/-- Test for the dead-letter settle operation. -/
def SettleAction.isDeadLetter : SettleAction → Bool
  | .deadLetter _ _ => true
  | _ => false

/-- receive_messages: a callback returning True completes the message,
a callback returning False abandons it. -/
def settle_after_callback (success : Bool) : SettleAction :=
  if success then .complete else .abandon

/-- Settle operation the receive loop applies to a message whose
processing failed: the should-complete flag from _handle_job_failure fed
into the complete/abandon decision. -/
def failure_settle_action (st : WorkerState) (msg : GenerationJobMessage)
    (error : String) (now : Nat) : SettleAction :=
  settle_after_callback (handle_job_failure st msg error now).2

/-- Status of a generation in a worker state. -/
def record_status (st : WorkerState) (generation_id : String) :
    Option GenerationStatus :=
  (find_by_id st.store generation_id).map fun r => r.status

/-! Artifact stage of the pipeline (steps 3 and 4 of
process_generation_job): replicate_service.download_all_outputs and
worker _upload_images.  Download and upload outcomes are supplied by
oracle functions standing for the network calls; an exception from a
single download or upload appears as an error/none outcome for that
artifact only, matching the per-item try blocks. -/

/-- Downloaded artifact content, abbreviated to an opaque string. -/
abbrev Image := String

/-- Whether an Except outcome is a success. -/
def exceptIsOk {ε α : Type} : Except ε α → Bool
  | .ok _ => true
  | .error _ => false

/-- ReplicateService.download_all_outputs: gathers the per-URL download
outcomes in order, drops the failures (they are only logged) and keeps
the successful payloads. -/
def download_all_outputs (results : List (Except String Image)) : List Image :=
  results.filterMap fun r =>
    match r with
    | .ok img => some img
    | .error _ => none

/-- BackgroundWorker._upload_images: uploads each downloaded image in
order; a failed upload is skipped (logged only), and the function raises
exactly when no upload at all succeeded.  The upload outcome for the
image at a given index is supplied by the oracle up. -/
def upload_images (images : List Image)
    (up : Nat → Image → Option String) : Except String (List String) :=
  let blob_urls := images.enum.filterMap fun p => up p.1 p.2
  if blob_urls.isEmpty then
    .error "Failed to upload any images to blob storage"
  else
    .ok blob_urls

/-- Steps 3 and 4 of process_generation_job after a successful synthesis:
raise when the provider returned no output URLs, raise when no artifact
could be downloaded, then upload the downloaded artifacts. -/
def process_artifacts (output_urls : List String)
    (dl : String → Except String Image)
    (up : Nat → Image → Option String) : Except String (List String) :=
  if output_urls.isEmpty then
    .error "No output images generated"
  else
    let images := download_all_outputs (output_urls.map dl)
    if images.isEmpty then
      .error "Failed to download generated images"
    else
      upload_images images up

/-! Per-message handling of the receive loop (queue_service.py
receive_messages): parse the body, run the callback, settle. -/

/-- Outcome of the processor callback on a parsed message: a returned
boolean, a raised MessageLockLostError, or any other raised exception. -/
inductive CallbackOutcome
  | returns (success : Bool)
  | raisesLockLost (message : String)
  | raises (message : String)
deriving DecidableEq, Repr

/-- Per-message body of receive_messages.  A body that fails to parse
raises inside the try block and reaches the generic handler, which
dead-letters with reason ProcessingError.  A callback that returns
settles by complete/abandon.  A raised MessageLockLostError is caught by
its dedicated handler and only logged (no settle call); every other
raised exception is dead-lettered with reason ProcessingError. -/
def handle_received_message (parse : Except String GenerationJobMessage)
    (cb : GenerationJobMessage → CallbackOutcome) : SettleAction :=
  match parse with
  | .error e => .deadLetter "ProcessingError" e
  | .ok m =>
    match cb m with
    | .returns success => settle_after_callback success
    | .raisesLockLost _ => .noSettle
    | .raises e => .deadLetter "ProcessingError" e

/-! Concrete fixtures used by counterexamples and witnesses. -/

/-- Example free-tier subscription: 9 of 10 monthly credits left. -/
def subEx : Subscription :=
  { id := "sub1", user_id := "u1", tier := .free, credits_remaining := 9,
    credits_used_this_period := 1, credits_per_month := 10 }

/-- Example generation record currently processing (cost 1 credit,
first started at time 5). -/
def recEx : GenRecord :=
  { id := "gen1", user_id := "u1", prompt := "a cat", status := .processing,
    cost_credits := 1, image_url := none, all_outputs := [],
    error_message := none, attempts := none, started_at := some 5,
    completed_at := none, failed_at := none, processing_time_ms := none,
    updated_at := 5 }

/-- Example completed generation record with a stored result. -/
def completedRecEx : GenRecord :=
  { recEx with status := .completed, all_outputs := ["old.png"],
               image_url := some "old.png", completed_at := some 6 }

/-- Example job message for recEx at a given attempt. -/
def msgEx (attempt : Int) : GenerationJobMessage :=
  mkJobMessage "gen1" "u1" "a cat" "flux-schnell" "text_to_image"
    (some [("width", "1024")]) none "normal" attempt "t0" "m0"

/-- Example worker state holding recEx, subEx and an empty usage log. -/
def stEx : WorkerState := { store := [recEx], sub := subEx, logs := [] }

/-! C1: refund on terminal failure. -/

/-- C1 counterexample: a terminal failure observation (attempt 3 of 3, no
prior refund) sets the record to failed but leaves the subscription
balance at 9 and appends no refund log entry, although cost_credits is 1;
the claimed refund of exactly cost_credits is not issued. -/
theorem C1_refund_on_failure_counterexample :
    (handle_job_failure stEx (msgEx 3) "provider error" 7).1.sub = stEx.sub ∧
    (handle_job_failure stEx (msgEx 3) "provider error" 7).1.logs = stEx.logs ∧
    refundLogged stEx.logs
      (handle_job_failure stEx (msgEx 3) "provider error" 7).1.logs "gen1" 1
      = false ∧
    record_status (handle_job_failure stEx (msgEx 3) "provider error" 7).1
      "gen1" = some GenerationStatus.failed ∧
    recEx.cost_credits = 1 ∧
    (handle_job_failure stEx (msgEx 3) "provider error" 7).1.sub.credits_remaining
      = 9 := by
  exact ⟨rfl, rfl, rfl, rfl, rfl, rfl⟩

/-- C1 (amended): the failure-handling path never touches the credit
ledger: for every state, message, error and time, _handle_job_failure
leaves the subscription document and the usage log unchanged, so no
credit refund (of cost_credits or any other amount) is ever issued for a
job failure, terminal or not.  refund_credits exists in the credit
service but is not invoked by the pipeline. -/
theorem C1_failure_never_refunds (st : WorkerState)
    (msg : GenerationJobMessage) (error : String) (now : Nat)
    (generation_id : String) (cost : Int) :
    (handle_job_failure st msg error now).1.sub = st.sub ∧
    (handle_job_failure st msg error now).1.logs = st.logs ∧
    refundLogged st.logs (handle_job_failure st msg error now).1.logs
      generation_id cost = false := by
  refine ⟨?_, ?_, ?_⟩ <;>
    simp [handle_job_failure, refundLogged, List.drop_length]

/-! C2: settle operation applied after a processing failure. -/

/-- C2 counterexample: for a failed job at attempt 3 (attempt at
max_retries), the orchestrator abandons the message; it does not call
dead_letter. -/
theorem C2_settle_counterexample :
    (msgEx 3).attempt = max_retries ∧
    failure_settle_action stEx (msgEx 3) "provider error" 7
      = SettleAction.abandon ∧
    SettleAction.isDeadLetter
      (failure_settle_action stEx (msgEx 3) "provider error" 7) = false := by
  exact ⟨rfl, rfl, rfl⟩

/-- C2 (amended): on every processing failure the orchestrator never
completes the message: _handle_job_failure returns False in both its
branches, so the receive loop abandons the message whatever the attempt
counter; the orchestrator itself never dead-letters a failed job
(dead-lettering is left to the broker's own delivery count). -/
theorem C2_failure_always_abandons (st : WorkerState)
    (msg : GenerationJobMessage) (error : String) (now : Nat) :
    (handle_job_failure st msg error now).2 = false ∧
    failure_settle_action st msg error now = SettleAction.abandon ∧
    SettleAction.isDeadLetter (failure_settle_action st msg error now)
      = false := by
  refine ⟨?_, ?_, ?_⟩ <;>
    simp [handle_job_failure, failure_settle_action, settle_after_callback,
      SettleAction.isDeadLetter]

/-! C3: monotonicity of completed and conditional status updates. -/

/-- C3 counterexample: replaying a job message for a completed record
moves it back to processing and a subsequent completion overwrites its
stored results; the update is not guarded on the current status. -/
theorem C3_completed_guard_counterexample :
    completedRecEx.status = GenerationStatus.completed ∧
    (update_status_processing completedRecEx 9).status
      = GenerationStatus.processing ∧
    (update_status_processing completedRecEx 9).status
      ≠ GenerationStatus.completed ∧
    (update_completion (update_status_processing completedRecEx 9)
        ["new.png"] none 10).all_outputs = ["new.png"] ∧
    (update_completion (update_status_processing completedRecEx 9)
        ["new.png"] none 10).all_outputs ≠ completedRecEx.all_outputs := by
  refine ⟨rfl, rfl, ?_, rfl, ?_⟩ <;> decide

/-- C3 (amended): the pipeline's status writes go through the
unconditional update_by_id set, with no guard on the current status: for
any record already completed, the processing update of a replayed
message sets the status to processing (leaving completed), and the
subsequent completion update overwrites the stored outputs with the new
ones. -/
theorem C3_updates_unconditional (r : GenRecord) (now later : Nat)
    (urls : List String) (pt : Option Int)
    (h : r.status = GenerationStatus.completed) :
    (update_status_processing r now).status = GenerationStatus.processing ∧
    (update_status_processing r now).status ≠ r.status ∧
    (update_completion (update_status_processing r now) urls pt later).all_outputs
      = urls := by
  refine ⟨rfl, ?_, rfl⟩
  rw [h]
  simp [update_status_processing]

/-- C3 witness: the amended theorem applied to the concrete completed
record. -/
theorem C3_updates_unconditional_witness :
    completedRecEx.status = GenerationStatus.completed ∧
    ((update_status_processing completedRecEx 9).status
        = GenerationStatus.processing ∧
      (update_status_processing completedRecEx 9).status
        ≠ completedRecEx.status ∧
      (update_completion (update_status_processing completedRecEx 9)
          ["new.png"] none 10).all_outputs = ["new.png"]) :=
  ⟨rfl, C3_updates_unconditional completedRecEx 9 10 ["new.png"] none rfl⟩

/-! C4: treatment of provider rate-limit errors. -/

/-- C4 counterexample: a rate-limit failure on attempt 2 sets the record
to failed (it does not stay processing), exactly like any other
failure. -/
theorem C4_rate_limit_counterexample :
    record_status
      (process_failure stEx (msgEx 2) (JobError.rateLimit "rate limit") 7).1
      "gen1" = some GenerationStatus.failed ∧
    record_status
      (process_failure stEx (msgEx 2) (JobError.rateLimit "rate limit") 7).1
      "gen1" ≠ some GenerationStatus.processing := by
  refine ⟨rfl, ?_⟩
  decide

/-- C4 (amended): the worker makes no case split on the error type: a
provider rate-limit error is processed identically to any other error
with the same message (the record is set to failed with the attempt
recorded, the message is abandoned, no backoff hint is attached), so
rate-limit failures receive no special treatment and follow the same
retry bookkeeping as other failures. -/
theorem C4_rate_limit_not_special (st : WorkerState)
    (msg : GenerationJobMessage) (s : String) (now : Nat) :
    process_failure st msg (JobError.rateLimit s) now
      = process_failure st msg (JobError.providerError s) now ∧
    process_failure st msg (JobError.rateLimit s) now
      = handle_job_failure st msg s now ∧
    (process_failure st msg (JobError.rateLimit s) now).2 = false := by
  refine ⟨rfl, rfl, ?_⟩
  simp [process_failure, handle_job_failure]

/-! C8: stamping of started_at. -/

/-- C8 counterexample: a record already processing with started_at 5 is
re-entered at time 9 by a retry; started_at is overwritten to 9 instead
of keeping the first-attempt value. -/
theorem C8_started_at_counterexample :
    recEx.status = GenerationStatus.processing ∧
    recEx.started_at = some 5 ∧
    (update_status_processing recEx 9).started_at = some 9 ∧
    (update_status_processing recEx 9).started_at ≠ recEx.started_at := by
  refine ⟨rfl, rfl, rfl, ?_⟩
  decide

/-- C8 (amended): every transition to processing stamps started_at with
the current time, overwriting any earlier value, so started_at reflects
the most recent attempt rather than the first one. -/
theorem C8_started_at_restamped (r : GenRecord) (now : Nat) :
    (update_status_processing r now).started_at = some now := rfl

/-! C5: deduction fails closed and never drives the balance negative. -/

/-- C5: for a non-unlimited account, deduct_credits raises
InsufficientCreditsError and leaves the stored subscription unchanged
whenever the balance is below the requested amount; otherwise it
succeeds with new balance = old balance - amount, which is then
non-negative, so no deduction ever makes the balance negative. -/
theorem C5_deduct_fails_closed (sub : Subscription) (logs : List UsageEntry)
    (credits : Int) (generation_id : Option String)
    (h : isUnlimited sub.tier = false) :
    (sub.credits_remaining < credits →
      (deduct_credits sub logs credits generation_id).1 = sub ∧
      (deduct_credits sub logs credits generation_id).2.2
        = Except.error
            (CreditError.insufficientCredits credits sub.credits_remaining)) ∧
    (credits ≤ sub.credits_remaining →
      (deduct_credits sub logs credits generation_id).1.credits_remaining
        = sub.credits_remaining - credits ∧
      0 ≤ (deduct_credits sub logs credits generation_id).1.credits_remaining) := by
  constructor
  · intro hlt
    simp [deduct_credits, h, hlt]
  · intro hle
    have hnlt : ¬ sub.credits_remaining < credits := not_lt.mpr hle
    refine ⟨?_, ?_⟩
    · simp [deduct_credits, h, hnlt]
    · simp [deduct_credits, h, hnlt]
      omega

/-- Example earning-tier subscription used by the C5 witness. -/
def subEx2 : Subscription :=
  { id := "sub2", user_id := "u2", tier := .free, credits_remaining := 5,
    credits_used_this_period := 5, credits_per_month := 10 }

/-- C5 witness: the theorem applied to a free-tier account with balance 5
and a deduction of 3. -/
theorem C5_deduct_fails_closed_witness :
    isUnlimited subEx2.tier = false ∧
    ((subEx2.credits_remaining < 3 →
        (deduct_credits subEx2 [] 3 none).1 = subEx2 ∧
        (deduct_credits subEx2 [] 3 none).2.2
          = Except.error
              (CreditError.insufficientCredits 3 subEx2.credits_remaining)) ∧
      ((3 : Int) ≤ subEx2.credits_remaining →
        (deduct_credits subEx2 [] 3 none).1.credits_remaining
          = subEx2.credits_remaining - 3 ∧
        0 ≤ (deduct_credits subEx2 [] 3 none).1.credits_remaining)) :=
  ⟨rfl, C5_deduct_fails_closed subEx2 [] 3 none rfl⟩

/-! C6: administrative resubmission from the dead-letter queue. -/

/-- Example dead-lettered job message that exhausted its attempts. -/
def dlqMsgEx : GenerationJobMessage :=
  mkJobMessage "gen9" "u9" "sunset over water" "flux-dev" "text_to_image"
    (some [("width", "1024")]) (some "https://example.test/hook") "high" 3
    "t0" "m-dlq"

/-- C6: resubmission of the dead-lettered message with attempt 3 produces
a new message whose attempt is 1, not 4: the incremented counter computed
by resubmit_dead_letter_message is dropped because
send_generation_request takes no attempt argument and rebuilds the
message with the default attempt of 1.  The payload fields and the fresh
message_id behave as claimed. -/
theorem C6_resubmit_drops_attempt :
    (resubmit_dead_letter_message dlqMsgEx "t1" "m-new").attempt = 1 ∧
    dlqMsgEx.attempt + 1 = 4 ∧
    (resubmit_dead_letter_message dlqMsgEx "t1" "m-new").attempt
      ≠ dlqMsgEx.attempt + 1 ∧
    (resubmit_dead_letter_message dlqMsgEx "t1" "m-new").message_id = "m-new" ∧
    (resubmit_dead_letter_message dlqMsgEx "t1" "m-new").message_id
      ≠ dlqMsgEx.message_id ∧
    (resubmit_dead_letter_message dlqMsgEx "t1" "m-new").generation_id
      = dlqMsgEx.generation_id ∧
    (resubmit_dead_letter_message dlqMsgEx "t1" "m-new").user_id
      = dlqMsgEx.user_id ∧
    (resubmit_dead_letter_message dlqMsgEx "t1" "m-new").prompt
      = dlqMsgEx.prompt ∧
    (resubmit_dead_letter_message dlqMsgEx "t1" "m-new").model
      = dlqMsgEx.model ∧
    (resubmit_dead_letter_message dlqMsgEx "t1" "m-new").job_type
      = dlqMsgEx.job_type ∧
    (resubmit_dead_letter_message dlqMsgEx "t1" "m-new").settings
      = dlqMsgEx.settings ∧
    (resubmit_dead_letter_message dlqMsgEx "t1" "m-new").callback_url
      = dlqMsgEx.callback_url ∧
    (resubmit_dead_letter_message dlqMsgEx "t1" "m-new").priority
      = dlqMsgEx.priority := by
  refine ⟨rfl, rfl, ?_, rfl, ?_, rfl, rfl, rfl, rfl, rfl, rfl, rfl, rfl⟩ <;>
    decide

/-! C9: serialization round trip of the job message. -/

/-- Example job message used for the round-trip counterexample. -/
def msgRt : GenerationJobMessage :=
  mkJobMessage "gen1" "u1" "a cat" "flux-schnell" "text_to_image"
    (some [("width", "1024")]) none "normal" 2 "t1" "m1"

/-- C9 counterexample: deserializing the serialized form of a message
does not return an equal message: the constructor regenerates message_id
and created_at, so both differ from the original values on the wire. -/
theorem C9_roundtrip_counterexample :
    GenerationJobMessage.from_dict (GenerationJobMessage.to_dict msgRt)
      "t2" "m2" ≠ msgRt ∧
    (GenerationJobMessage.from_dict (GenerationJobMessage.to_dict msgRt)
      "t2" "m2").message_id ≠ msgRt.message_id ∧
    (GenerationJobMessage.from_dict (GenerationJobMessage.to_dict msgRt)
      "t2" "m2").created_at ≠ msgRt.created_at := by
  refine ⟨?_, ?_, ?_⟩ <;> decide

/-- C9 (amended): from_dict(to_dict(m)) preserves generation_id, user_id,
job_type, prompt, model, settings, callback_url, priority and attempt,
but message_id and created_at are freshly generated at deserialization
instead of being read back from the wire form. -/
theorem C9_roundtrip_payload (m : GenerationJobMessage) (now fresh : String) :
    GenerationJobMessage.from_dict (GenerationJobMessage.to_dict m) now fresh
      = { m with created_at := now, message_id := fresh } := rfl

/-! C10: settling of unparseable bodies and raising callbacks. -/

/-- C10 counterexample: a callback that raises the broker lock-lost error
is caught by its dedicated handler and only logged: the message is not
dead-lettered (nor completed or abandoned). -/
theorem C10_lock_lost_counterexample :
    handle_received_message (Except.ok msgRt)
      (fun _ => CallbackOutcome.raisesLockLost "lock lost")
      = SettleAction.noSettle ∧
    SettleAction.isDeadLetter
      (handle_received_message (Except.ok msgRt)
        (fun _ => CallbackOutcome.raisesLockLost "lock lost")) = false := by
  exact ⟨rfl, rfl⟩

/-- C10 (amended): a message whose body fails to parse is dead-lettered
with reason ProcessingError regardless of the callback and of the
attempt counter, and a callback that raises an exception other than the
broker lock-lost error is likewise dead-lettered with reason
ProcessingError (never completed or abandoned); a raised lock-lost error
is only logged, with no settle operation at all. -/
theorem C10_dead_letter_on_processing_error (e raiseMsg lockMsg : String)
    (m : GenerationJobMessage)
    (cb0 cb1 cb2 : GenerationJobMessage → CallbackOutcome)
    (h1 : cb1 m = CallbackOutcome.raises raiseMsg)
    (h2 : cb2 m = CallbackOutcome.raisesLockLost lockMsg) :
    handle_received_message (Except.error e) cb0
      = SettleAction.deadLetter "ProcessingError" e ∧
    handle_received_message (Except.ok m) cb1
      = SettleAction.deadLetter "ProcessingError" raiseMsg ∧
    handle_received_message (Except.ok m) cb2 = SettleAction.noSettle := by
  refine ⟨rfl, ?_, ?_⟩ <;> simp [handle_received_message, h1, h2]

/-- Callback raising a generic exception, for the C10 witness. -/
def cbRaisesEx : GenerationJobMessage → CallbackOutcome :=
  fun _ => CallbackOutcome.raises "boom"

/-- Callback raising the broker lock-lost error, for the C10 witness. -/
def cbLockLostEx : GenerationJobMessage → CallbackOutcome :=
  fun _ => CallbackOutcome.raisesLockLost "lock lost"

/-- C10 witness: the amended theorem applied to a concrete unparseable
body and the two concrete raising callbacks. -/
theorem C10_dead_letter_witness :
    cbRaisesEx msgRt = CallbackOutcome.raises "boom" ∧
    cbLockLostEx msgRt = CallbackOutcome.raisesLockLost "lock lost" ∧
    (handle_received_message (Except.error "invalid json") cbRaisesEx
        = SettleAction.deadLetter "ProcessingError" "invalid json" ∧
      handle_received_message (Except.ok msgRt) cbRaisesEx
        = SettleAction.deadLetter "ProcessingError" "boom" ∧
      handle_received_message (Except.ok msgRt) cbLockLostEx
        = SettleAction.noSettle) :=
  ⟨rfl, rfl,
    C10_dead_letter_on_processing_error "invalid json" "boom" "lock lost"
      msgRt cbRaisesEx cbRaisesEx cbLockLostEx rfl rfl⟩

/-! C7: tolerance of partial artifact download and upload failures. -/

/-- Helper: a filterMap result is nonempty exactly when some element of
the input maps to a some value. -/
theorem filterMap_nonempty_iff_any {α β : Type} (l : List α)
    (f : α → Option β) :
    (l.filterMap f).isEmpty = false ↔ l.any (fun a => (f a).isSome) = true := by
  induction l with
  | nil => simp
  | cons a l ih =>
    cases hfa : f a
    · simpa [List.filterMap_cons, hfa] using ih
    · simp [List.filterMap_cons, hfa]

/-- Helper: download_all_outputs returns a nonempty list exactly when at
least one download succeeded. -/
theorem download_nonempty_iff_any (results : List (Except String Image)) :
    (download_all_outputs results).isEmpty = false ↔
      results.any exceptIsOk = true := by
  unfold download_all_outputs
  rw [filterMap_nonempty_iff_any]
  have hpt : (fun r : Except String Image =>
      (match r with
        | .ok img => some img
        | .error _ => (none : Option Image)).isSome) = exceptIsOk := by
    funext r
    cases r <;> rfl
  rw [hpt]

/-- Helper: the artifact stage succeeds exactly when the provider gave at
least one output URL, at least one download succeeded, and at least one
upload of a downloaded artifact succeeded. -/
theorem process_artifacts_isOk (output_urls : List String)
    (dl : String → Except String Image)
    (up : Nat → Image → Option String) :
    exceptIsOk (process_artifacts output_urls dl up) =
      (!output_urls.isEmpty && (output_urls.map dl).any exceptIsOk &&
        (download_all_outputs (output_urls.map dl)).enum.any
          (fun p => (up p.1 p.2).isSome)) := by
  unfold process_artifacts upload_images
  cases h0 : output_urls.isEmpty
  · cases h1 : (download_all_outputs (output_urls.map dl)).isEmpty
    · have hany := (download_nonempty_iff_any (output_urls.map dl)).mp h1
      cases h2 : ((download_all_outputs (output_urls.map dl)).enum.filterMap
          fun p => up p.1 p.2).isEmpty
      · have h2any := (filterMap_nonempty_iff_any _ _).mp h2
        simp [h1, h2, hany, h2any, exceptIsOk]
      · have h2any : ((download_all_outputs (output_urls.map dl)).enum.any
            fun p => (up p.1 p.2).isSome) = false := by
          cases hb : ((download_all_outputs (output_urls.map dl)).enum.any
              fun p => (up p.1 p.2).isSome)
          · rfl
          · have hne := (filterMap_nonempty_iff_any _ _).mpr hb
            rw [h2] at hne
            exact absurd hne (by simp)
        simp [h1, h2, hany, h2any, exceptIsOk]
    · have hany : (output_urls.map dl).any exceptIsOk = false := by
        cases hb : (output_urls.map dl).any exceptIsOk
        · rfl
        · have hne := (download_nonempty_iff_any (output_urls.map dl)).mpr hb
          rw [h1] at hne
          exact absurd hne (by simp)
      simp [h1, hany, exceptIsOk]
  · simp [h0, exceptIsOk]

/-- C7: when synthesis succeeds with one or more output URLs, the job
passes the artifact stage exactly when at least one artifact is
downloaded and at least one downloaded artifact is uploaded; individual
download or upload failures are skipped without aborting the job, and
the stage fails exactly when zero artifacts are retrievable or zero
uploads succeed. -/
theorem C7_partial_artifact_failures_tolerated (output_urls : List String)
    (dl : String → Except String Image)
    (up : Nat → Image → Option String) (h : output_urls ≠ []) :
    exceptIsOk (process_artifacts output_urls dl up) = true ↔
      ((output_urls.map dl).any exceptIsOk = true ∧
        ((download_all_outputs (output_urls.map dl)).enum.any
          (fun p => (up p.1 p.2).isSome)) = true) := by
  have h0 : output_urls.isEmpty = false := by
    cases output_urls
    · exact absurd rfl h
    · rfl
  rw [process_artifacts_isOk]
  simp [h0]

/-- Download oracle for the C7 witness: the first URL fails, the second
succeeds. -/
def dlEx : String → Except String Image :=
  fun u => if u = "url1" then Except.error "HTTP 500" else Except.ok "bytes"

/-- Upload oracle for the C7 witness: only the artifact at index 0
uploads successfully. -/
def upEx : Nat → Image → Option String :=
  fun i _ => if i = 0 then some "https://blob.test/out0.png" else none

/-- C7 witness: the theorem applied to two output URLs of which one
download fails and one upload succeeds. -/
theorem C7_partial_artifact_failures_witness :
    (["url1", "url2"] : List String) ≠ [] ∧
    (exceptIsOk (process_artifacts ["url1", "url2"] dlEx upEx) = true ↔
      (((["url1", "url2"] : List String).map dlEx).any exceptIsOk = true ∧
        ((download_all_outputs ((["url1", "url2"] : List String).map dlEx)).enum.any
          (fun p => (upEx p.1 p.2).isSome)) = true)) :=
  ⟨by decide,
    C7_partial_artifact_failures_tolerated ["url1", "url2"] dlEx upEx
      (by decide)⟩

end ImgGen
